import Mathlib

set_option maxRecDepth 8000

/-!
Shallow embedding of the `dftt_timecode` core (files
`dftt_timecode/core/dftt_timecode.py` and `dftt_timecode/core/dftt_timerange.py`).

Modelling conventions, stated here once and used throughout:

* Python `fractions.Fraction` is modelled by `ℚ` (Lean's `Rat` is kept reduced,
  exactly like `Fraction`).
* Python integer and `Fraction` arithmetic is exact and is modelled by the
  corresponding exact operation on `ℤ`/`ℚ`.
* Python float arithmetic: a Python float is an IEEE-754 binary64 value, i.e. an
  exact rational; every single CPython float operation (`+ - * /`, `float(str)`,
  `int / int` true division) is correctly rounded to nearest, ties to even.
  Where a claim's truth depends on that rounding we model the operation with
  `float64` below (round to nearest at 53 significant bits, ties to even;
  subnormals and overflow do not occur at the magnitudes used in this file).
  Where the float detour provably cancels — values that are integers, or
  `round()` applied to a product whose accumulated double-rounding error is far
  below 1/2 — we model the value by the exact rational it denotes, which yields
  the same observable results as CPython.
* Python `%` and `//` on numbers with a positive right operand are floor-based;
  they are modelled by `qmod` and `Int.floor`.
* Python `round()` with no digits argument rounds half to even for `int`,
  `float` and `Fraction` alike; it is modelled by `pyRound`.
* `raise` is modelled by returning `Res.err`, normal return by `Res.ok`.
-/

/-- Error taxonomy of the library (`dftt_timecode/error.py`) plus the Python
built-in exceptions that the modelled code can raise. -/
inductive DfttError where
  /-- DFTTTimecodeValueError -/
  | valueError
  /-- DFTTTimecodeTypeError -/
  | typeError
  /-- DFTTTimecodeInitializationError -/
  | initError
  /-- DFTTTimecodeOperatorError -/
  | operatorError
  /-- DFTTTimeRangeValueError -/
  | rangeValueError
  /-- Python built-in TypeError (raised by the `singledispatchmethod` fallback
  of `DfttTimecode.__init__`) -/
  | pyTypeError
  /-- Python built-in AttributeError (raised by `getattr` without a default) -/
  | attributeError
deriving DecidableEq, Repr

/-- Result of a Python call: `ok` models a normal return, `err` a raised
exception. -/
inductive Res (α : Type) where
  | ok : α → Res α
  | err : DfttError → Res α
deriving DecidableEq, Repr

/-- Map over the normal-return case of a `Res`. -/
def Res.map {α β : Type} (f : α → β) : Res α → Res β
  | .ok a => .ok (f a)
  | .err e => .err e

/-- Python `a % b` for rational `a` and positive rational `b` (the only uses in
this code base): `a - b * ⌊a / b⌋`, the floor-based remainder. -/
def qmod (a b : ℚ) : ℚ := a - b * ⌊a / b⌋

/-- Python `round(x)` with no digits argument: round half to even, returning an
integer.  CPython applies this rule to `int`, `float` and `Fraction` alike. -/
def pyRound (q : ℚ) : ℤ :=
  let f : ℤ := ⌊q⌋
  let r : ℚ := q - f
  if r < 1/2 then f
  else if 1/2 < r then f + 1
  else if f % 2 = 0 then f else f + 1

/-- Fuel-driven binary logarithm for `q ≥ 1`: returns `e` with `2^e ≤ q < 2^(e+1)`
when the fuel exceeds `e`. -/
def log2Up : ℕ → ℚ → ℤ
  | 0, _ => 0
  | n + 1, q => if q < 2 then 0 else log2Up n (q / 2) + 1

/-- Fuel-driven binary logarithm for `0 < q < 1`: returns `e` with
`2^e ≤ q < 2^(e+1)` when the fuel exceeds `-e`. -/
def log2Down : ℕ → ℚ → ℤ
  | 0, _ => 0
  | n + 1, q => if 1 ≤ q then 0 else log2Down n (q * 2) - 1

/-- Floor of the base-2 logarithm of a positive rational.  Fuel 80 covers every
magnitude appearing in this file (exponents between -70 and 70). -/
def floorLog2 (q : ℚ) : ℤ :=
  if 1 ≤ q then log2Up 80 q else log2Down 80 q

/-- Round a real (rational) value to the nearest IEEE-754 binary64 value, ties
to even — the result of a single correctly-rounded CPython float operation.
Subnormal underflow and overflow are not modelled; every use in this file is far
inside the normal range. -/
def float64 (q : ℚ) : ℚ :=
  if q = 0 then 0
  else
    let a : ℚ := |q|
    let e : ℤ := floorLog2 a
    let scale : ℚ := (2 : ℚ) ^ (e - 52)
    let m : ℤ := pyRound (a / scale)
    (if q < 0 then -1 else 1) * m * scale

/-- Left-pad a digit string with zeros to width `w`. -/
def zfill (w : ℕ) (s : String) : String :=
  if s.length ≥ w then s else String.mk (List.replicate (w - s.length) '0') ++ s

/-- Python `format(n, '0Wd')` for an int `n`: minimum field width `W` including
the sign, zero-padded (so `format(-1, '02d') = '-1'`, `format(4, '02d') = '04'`). -/
def pyFmtInt (w : ℕ) (n : ℤ) : String :=
  if n < 0 then "-" ++ zfill (w - 1) (toString n.natAbs) else zfill w (toString n.natAbs)

/-- Number of decimal digits of the Python `int` `n`, i.e. `len(str(n))` for
`n ≥ 0`. -/
def numDigits (n : ℕ) : ℕ := (toString n).length

/-- Internal format tag of a timecode (`DfttTimecode._DfttTimecode__type`);
`auto` is resolved before storage so only the seven concrete formats occur. -/
inductive TimecodeType where
  | smpte | srt | dlp | ffmpeg | fcpx | frame | time
deriving DecidableEq, Repr

/-- State of a `DfttTimecode` instance: the five private fields of the Python
class.  `nominal_fps` is `ceil(fps)` at construction time. -/
structure DfttTimecode where
  type : TimecodeType
  fps : ℚ
  nominal_fps : ℤ
  drop_frame : Bool
  strict : Bool
  precise_time : ℚ
deriving DecidableEq, Repr

/-- Exact decimal rounding of `q` to two decimal digits, half to even.  This is
the value CPython's `round(fps, 2)` denotes: for a float `fps` it returns the
double nearest to this decimal (`float64 (round2 fps)`), for a `Fraction` it
returns the decimal exactly (and the subsequent float `%` converts it to that
same double). -/
def round2 (q : ℚ) : ℚ := (pyRound (q * 100) : ℚ) / 100

/-- Embeds `DfttTimecode.__validate_drop_frame`.  The Python parameter
`drop_frame` may be `None` on the string path; `None` behaves exactly like
`False` there (`return False if not drop_frame else True`), so a `Bool`
parameter is faithful.  `fps` is the exact value of the caller's argument (for
a Python float, the double it denotes).  The tests `round(fps, 2) % 29.97 == 0`
and `round(self.fps, 2) % 23.98 == 0` run on doubles: `round(fps, 2)` is the
double nearest the two-decimal rounding, the literals `29.97`/`23.98` are the
doubles nearest those decimals, and float `%` on positive operands is exact
(IEEE fmod introduces no rounding), hence `qmod` of the two doubles. -/
def validate_drop_frame (drop_frame : Bool) (fps : ℚ) : Bool :=
  if qmod (float64 (round2 fps)) (float64 (2997/100)) = 0 then
    -- FPS a multiple of 29.97 (as doubles): respect the drop_frame argument
    drop_frame
  else
    decide (qmod (float64 (round2 fps)) (float64 (2398/100)) = 0)

/-- Embeds `DfttTimecode.__apply_strict`: 24h wraparound of the precise time if
strict mode is enabled. -/
def apply_strict (strict : Bool) (t : ℚ) : ℚ := if strict then qmod t 86400 else t

/-- Embeds `DfttTimecode.__init_smpte` after the regex has matched: the four
captured fields (`hh, mm, ss, ff`, already non-negative integers) and the
leading-minus flag are the inputs; the result is the value stored into
`__precise_time`, or the raised error.  The final Python statement is
`Fraction(frame_index / self.__fps)`; with a `Fraction` fps this is exact
rational division, which is what we model (with a float fps CPython rounds the
quotient to a double; no claim in this file depends on that rounding, see the
module comment). -/
def init_smpte (fps : ℚ) (drop_frame strict minus : Bool) (hh mm ss ff : ℕ) : Res ℚ :=
  let nominal : ℤ := ⌈fps⌉
  if (ff : ℤ) > nominal - 1 then .err .valueError
  else
    let drop_per_min : ℚ := (nominal : ℚ) / 30 * 2
    if drop_frame ∧ mm % 10 ≠ 0 ∧ ss = 0 ∧ ((ff : ℚ) = 0 ∨ (ff : ℚ) = drop_per_min - 1)
    then .err .valueError
    else
      let frame_index : ℚ :=
        if drop_frame then
          let total_minutes : ℤ := 60 * hh + mm
          ((hh : ℚ) * 3600 + (mm : ℚ) * 60 + (ss : ℚ)) * (nominal : ℚ) + (ff : ℚ)
            - (nominal : ℚ) / 30 * 2 * ((total_minutes : ℚ) - ((total_minutes / 10 : ℤ) : ℚ))
        else (ff : ℚ) + (nominal : ℚ) * ((ss : ℚ) + (mm : ℚ) * 60 + (hh : ℚ) * 3600)
      let frame_index : ℚ :=
        if strict then
          if drop_frame then qmod frame_index (fps * 86400)
          else qmod frame_index ((nominal : ℚ) * 86400)
        else frame_index
      let frame_index : ℚ := if minus then -frame_index else frame_index
      .ok (frame_index / fps)

/-- Embeds `DfttTimecode.__init_srt` after the regex has matched.  The Python
expression `Fraction(hh * 3600 + mm * 60 + ss + sub_sec / 1000)` performs one
float division and one float addition; both are modelled by `float64`. -/
def init_srt (strict minus : Bool) (hh mm ss sub_sec : ℕ) : ℚ :=
  let t : ℚ := float64 (((hh * 3600 + mm * 60 + ss : ℕ) : ℚ) + float64 ((sub_sec : ℚ) / 1000))
  let t : ℚ := if minus then -t else t
  apply_strict strict t

/-- Embeds `DfttTimecode.__init_dlp` after the regex has matched
(`Fraction(hh * 3600 + mm * 60 + ss + sub_sec / 250)`, float division and
addition modelled by `float64`). -/
def init_dlp (strict minus : Bool) (hh mm ss sub_sec : ℕ) : ℚ :=
  let t : ℚ := float64 (((hh * 3600 + mm * 60 + ss : ℕ) : ℚ) + float64 ((sub_sec : ℚ) / 250))
  let t : ℚ := if minus then -t else t
  apply_strict strict t

/-- Embeds `DfttTimecode.__init_ffmpeg` after the regex has matched.  The
sub-second field is converted by `float(f'0.{sub_sec}')` where `sub_sec` is the
already-int-converted capture, so leading zeros of the capture are lost: the
value is `sub_sec / 10^len(str(sub_sec))`, rounded to a double. -/
def init_ffmpeg (strict minus : Bool) (hh mm ss sub_sec : ℕ) : ℚ :=
  let frac : ℚ := float64 ((sub_sec : ℚ) / (10 : ℚ) ^ numDigits sub_sec)
  let t : ℚ := float64 (((hh * 3600 + mm * 60 + ss : ℕ) : ℚ) + frac)
  let t : ℚ := if minus then -t else t
  apply_strict strict t

/-- Embeds `DfttTimecode.__init_fcpx` after the regex has matched:
`Fraction(numerator, denominator)`, exact. -/
def init_fcpx (strict minus : Bool) (numerator denominator : ℕ) : ℚ :=
  let t : ℚ := (numerator : ℚ) / (denominator : ℚ)
  let t : ℚ := if minus then -t else t
  apply_strict strict t

/-- Embeds `DfttTimecode.__init_frame` after the regex has matched.  The capture
group includes the sign, so `frame_value` is an integer of either sign and the
(computed but unused) minus flag of the caller is dropped, exactly as in the
source.  `Fraction(temp_frame_index / self.__fps)` is modelled as exact
division (see `init_smpte`). -/
def init_frame (fps : ℚ) (drop_frame strict : Bool) (frame_value : ℤ) : ℚ :=
  let nominal : ℤ := ⌈fps⌉
  let temp : ℚ :=
    if strict then
      if drop_frame then qmod (frame_value : ℚ) (fps * 86400)
      else qmod (frame_value : ℚ) ((nominal : ℚ) * 86400)
    else (frame_value : ℚ)
  temp / fps

/-- Embeds `DfttTimecode.__init_time` after the regex has matched: the captured
decimal literal is converted exactly by `Fraction(str)`. -/
def init_time (strict : Bool) (value : ℚ) : ℚ := apply_strict strict value

/-- Embeds the `@__init__.register` overload for `Fraction` values combined with
`__init_common` (timecode_type `'time'` or `'auto'`, the only calls occurring in
the library): builds the full instance state. -/
def DfttTimecode.fromFraction (q : ℚ) (fps : ℚ) (drop_frame strict : Bool) : DfttTimecode :=
  { type := .time
    fps := fps
    nominal_fps := ⌈fps⌉
    drop_frame := validate_drop_frame drop_frame fps
    strict := strict
    precise_time := apply_strict strict q }

/-- Constructor argument for the `singledispatchmethod` dispatch of
`DfttTimecode.__init__`: the overloads relevant to the claims.  `tcVal` is an
existing `DfttTimecode` instance (for which `__new__` returns the instance
itself and no overload is registered), `fracVal` a `fractions.Fraction`. -/
inductive TimecodeValue where
  | tcVal : DfttTimecode → TimecodeValue
  | fracVal : ℚ → TimecodeValue

/-- Embeds a call `DfttTimecode(value, 'auto'/'time', fps, drop_frame, strict)`:
`__new__` followed by `__init__` dispatch.  For an existing instance,
`__new__` returns that very instance, but `type.__call__` then invokes
`__init__` on it; `singledispatchmethod` has no overload registered for
`DfttTimecode`, so the undecorated base implementation runs and raises
`TypeError(f"Unsupported timecode value type: ...")`. -/
def DfttTimecode.construct (value : TimecodeValue) (fps : ℚ) (drop_frame strict : Bool) :
    Res DfttTimecode :=
  match value with
  | .tcVal _ => .err .pyTypeError
  | .fracVal q => .ok (DfttTimecode.fromFraction q fps drop_frame strict)

/-- Embeds `set_type(dest_type, rounding=False)` for a `dest_type` that is one
of the seven valid formats (always the case at the call sites modelled here):
only the stored type tag changes. -/
def set_type_norounding (tc : DfttTimecode) (dest : TimecodeType) : DfttTimecode :=
  { tc with type := dest }

/-- Embeds the `DfttTimecode.__add__` branch for a `DfttTimecode` right operand.
The method first assigns `self.__strict = self.__strict or other.__strict`
(mutating the left operand!), then builds the result through the `'time'`
constructor and `set_type(self.type, rounding=False)`.  The returned pair is
`(result, self after the call)`, making the mutation of the receiver explicit. -/
def DfttTimecode.add (self other : DfttTimecode) : Res (DfttTimecode × DfttTimecode) :=
  if self.fps = other.fps ∧ self.drop_frame = other.drop_frame then
    let self' : DfttTimecode := { self with strict := self.strict || other.strict }
    let temp_sum : ℚ := self'.precise_time + other.precise_time
    let temp_object : DfttTimecode :=
      DfttTimecode.fromFraction temp_sum self'.fps self'.drop_frame self'.strict
    .ok (set_type_norounding temp_object self'.type, self')
  else .err .operatorError

/-- Embeds the `DfttTimecode.__sub__` branch for a `DfttTimecode` right operand
(same receiver mutation as `__add__`). -/
def DfttTimecode.sub (self other : DfttTimecode) : Res (DfttTimecode × DfttTimecode) :=
  if self.fps = other.fps ∧ self.drop_frame = other.drop_frame then
    let self' : DfttTimecode := { self with strict := self.strict || other.strict }
    let diff : ℚ := self'.precise_time - other.precise_time
    let temp_object : DfttTimecode :=
      DfttTimecode.fromFraction diff self'.fps self'.drop_frame self'.strict
    .ok (set_type_norounding temp_object self'.type, self')
  else .err .operatorError

/-- Embeds `DfttTimecode.__neg__`. -/
def DfttTimecode.neg (self : DfttTimecode) : DfttTimecode :=
  set_type_norounding
    (DfttTimecode.fromFraction (-self.precise_time) self.fps self.drop_frame self.strict)
    self.type

/-- Embeds the `framecount` property: `int(str(round(precise_time * fps)))`. -/
def DfttTimecode.framecount (self : DfttTimecode) : ℤ :=
  pyRound (self.precise_time * self.fps)

/-- Embeds `DfttTimecode.get_audio_sample_count`.  CPython evaluates
`numerator * sample_rate / denominator` as exact int multiplication followed by
float (`/`) true division — correctly rounded to a double — and then floors. -/
def DfttTimecode.get_audio_sample_count (self : DfttTimecode) (sample_rate : ℤ) : ℤ :=
  let numerator : ℤ := self.precise_time.num
  let denominator : ℤ := (self.precise_time.den : ℤ)
  ⌊float64 (((numerator * sample_rate : ℤ) : ℚ) / (denominator : ℚ))⌋

/-- Embeds the inner helper `_convert_framecount_to_smpte_parts` of
`_convert_to_output_smpte`: successive `divmod` of the (possibly fractional,
for drop-frame rates whose `drop_per_min` is fractional) nominal frame count.
Python's `int()` truncation coincides with the floor already produced by
`divmod`, since each quotient is integral. -/
def convert_framecount_to_smpte_parts (frame_count : ℚ) (fps : ℤ) : ℤ × ℤ × ℤ × ℤ :=
  let hour : ℤ := ⌊frame_count / ((3600 * fps : ℤ) : ℚ)⌋
  let r1 : ℚ := qmod frame_count ((3600 * fps : ℤ) : ℚ)
  let minute : ℤ := ⌊r1 / ((60 * fps : ℤ) : ℚ)⌋
  let r2 : ℚ := qmod r1 ((60 * fps : ℤ) : ℚ)
  let second : ℤ := ⌊r2 / (fps : ℚ)⌋
  let frame : ℚ := qmod r2 (fps : ℚ)
  (hour, minute, second, pyRound frame)

/-- Embeds `DfttTimecode._convert_to_output_smpte` with `output_part=0` (the
full string; the parts feature is not needed by any claim). -/
def convert_to_output_smpte (tc : DfttTimecode) : String :=
  let frame_index : ℤ := pyRound (tc.precise_time * tc.fps)
  let minus_flag : Bool := frame_index < 0
  let frame_index : ℤ := if minus_flag then -frame_index else frame_index
  let nominal : ℤ := tc.nominal_fps
  let nominal_framecount : ℚ :=
    if ¬ tc.drop_frame then (frame_index : ℚ)
    else
      let drop_per_min : ℚ := (nominal : ℚ) / 30 * 2
      let df_framecount_10min : ℚ := (nominal : ℚ) * 600 - 9 * drop_per_min
      let d : ℤ := ⌊(frame_index : ℚ) / df_framecount_10min⌋
      let m : ℚ := qmod (frame_index : ℚ) df_framecount_10min
      (frame_index : ℚ) + drop_per_min * 9 * (d : ℚ) +
        drop_per_min *
          (if m > 2 then (⌊(m - drop_per_min) / ((nominal : ℚ) * 60 - drop_per_min)⌋ : ℚ) else 0)
  match convert_framecount_to_smpte_parts nominal_framecount nominal with
  | (hh, mm, ss, ff) =>
    let ff_width : ℕ := if tc.fps < 100 then 2 else 3
    let s_hh : String := (if minus_flag then "-" else "") ++ pyFmtInt 2 hh
    s_hh ++ ":" ++ pyFmtInt 2 mm ++ ":" ++ pyFmtInt 2 ss ++
      (if tc.drop_frame then ";" else ":") ++ pyFmtInt ff_width ff

/-- Embeds `DfttTimecode._convert_precise_time_to_parts` (full string only).
The overflow cascade is nested exactly as in the source: seconds are only
re-examined when the sub-second field overflowed, and so on. -/
def convert_precise_time_to_parts
    (precise_time : ℚ) (sub_sec_multiplier : ℤ) (frame_seperator : String)
    (sub_sec_width : ℕ) : String :=
  let minus_flag : Bool := precise_time < 0
  let temp : ℚ := |precise_time|
  let hh : ℤ := ⌊temp / 3600⌋
  let r1 : ℚ := qmod temp 3600
  let mm : ℤ := ⌊r1 / 60⌋
  let r2 : ℚ := qmod r1 60
  let ss : ℤ := ⌊r2⌋
  let r3 : ℚ := qmod r2 1
  let sub : ℤ := pyRound (r3 * (sub_sec_multiplier : ℚ))
  let state : ℤ × ℤ × ℤ × ℤ :=
    if sub ≥ sub_sec_multiplier then
      let ss2 : ℤ := ss + sub / sub_sec_multiplier
      let sub2 : ℤ := sub % sub_sec_multiplier
      if ss2 ≥ 60 then
        let mm2 : ℤ := mm + ss2 / 60
        let ss3 : ℤ := ss2 % 60
        if mm2 ≥ 60 then (hh + mm2 / 60, mm2 % 60, ss3, sub2)
        else (hh, mm2, ss3, sub2)
      else (hh, mm, ss2, sub2)
    else (hh, mm, ss, sub)
  match state with
  | (hh, mm, ss, sub) =>
    (if minus_flag then "-" else "") ++ pyFmtInt 2 hh ++ ":" ++ pyFmtInt 2 mm ++ ":" ++
      pyFmtInt 2 ss ++ frame_seperator ++ pyFmtInt sub_sec_width sub

/-- Embeds `DfttTimecode._convert_to_output_srt` (full string). -/
def convert_to_output_srt (tc : DfttTimecode) : String :=
  convert_precise_time_to_parts tc.precise_time 1000 "," 3

/-- Embeds `DfttTimecode._convert_to_output_dlp` (full string). -/
def convert_to_output_dlp (tc : DfttTimecode) : String :=
  convert_precise_time_to_parts tc.precise_time 250 ":" 3

/-- Embeds `DfttTimecode._convert_to_output_ffmpeg` (full string). -/
def convert_to_output_ffmpeg (tc : DfttTimecode) : String :=
  convert_precise_time_to_parts tc.precise_time 100 "." 2

/-- Embeds `DfttTimecode._convert_to_output_fcpx`.  The source writes
`f'{numerator}{denominator-or-empty}s'` (note: no `/` separator); the
`float(...).is_integer()` test is equivalent to `denominator == 1` for every
magnitude occurring here. -/
def convert_to_output_fcpx (tc : DfttTimecode) : String :=
  toString tc.precise_time.num ++
    (if tc.precise_time.den = 1 then "" else toString tc.precise_time.den) ++ "s"

/-- Embeds `DfttTimecode._convert_to_output_frame`: `str(round(pt * fps))`. -/
def convert_to_output_frame (tc : DfttTimecode) : String :=
  toString (pyRound (tc.precise_time * tc.fps))

/-- Python `round(x, 5)` on the precise time, as an exact decimal. -/
def roundDec5 (q : ℚ) : ℚ := (pyRound (q * 100000) : ℚ) / 100000

/-- Embeds `DfttTimecode._convert_to_output_time`: `str(round(float(pt), 5))`.
The exact text CPython produces for a float (`repr` shortest round-trip form,
e.g. `'1.0'`) is abstracted as `toString` of the rounded rational; no claim in
this file depends on this string's exact shape. -/
def convert_to_output_time (tc : DfttTimecode) : String :=
  toString (roundDec5 tc.precise_time)

/-- Renderer selection by stored type, used by `timecode_output('auto')`. -/
def convert_by_type (tc : DfttTimecode) : TimecodeType → String
  | .smpte => convert_to_output_smpte tc
  | .srt => convert_to_output_srt tc
  | .dlp => convert_to_output_dlp tc
  | .ffmpeg => convert_to_output_ffmpeg tc
  | .fcpx => convert_to_output_fcpx tc
  | .frame => convert_to_output_frame tc
  | .time => convert_to_output_time tc

/-- Embeds `DfttTimecode.timecode_output(dest_type, output_part=0)`.  The source
looks the renderer up with `getattr(self, f'_convert_to_output_{dest_type}')`
WITHOUT a default, so a destination type outside the seven supported names
raises `AttributeError` before the `if func: ... else: <smpte fallback>` line;
the fallback branch is unreachable (`getattr` never returns a falsy value
here). -/
def timecode_output (tc : DfttTimecode) (dest_type : String) : Res String :=
  if dest_type = "auto" then .ok (convert_by_type tc tc.type)
  else if dest_type = "smpte" then .ok (convert_to_output_smpte tc)
  else if dest_type = "srt" then .ok (convert_to_output_srt tc)
  else if dest_type = "dlp" then .ok (convert_to_output_dlp tc)
  else if dest_type = "ffmpeg" then .ok (convert_to_output_ffmpeg tc)
  else if dest_type = "fcpx" then .ok (convert_to_output_fcpx tc)
  else if dest_type = "frame" then .ok (convert_to_output_frame tc)
  else if dest_type = "time" then .ok (convert_to_output_time tc)
  else .err .attributeError

/-- Composition used by the round-trip claim: parse an SMPTE string (given by
its regex captures) and render the resulting timecode back to SMPTE. -/
def smpte_parse_render (fps : ℚ) (drop_frame strict minus : Bool) (hh mm ss ff : ℕ) :
    Res String :=
  (init_smpte fps drop_frame strict minus hh mm ss ff).map fun q =>
    convert_to_output_smpte
      { type := .smpte, fps := fps, nominal_fps := ⌈fps⌉, drop_frame := drop_frame,
        strict := strict, precise_time := q }

/-- Composition used by the round-trip claim for the ffmpeg format. -/
def ffmpeg_parse_render (strict minus : Bool) (hh mm ss sub_sec : ℕ) : String :=
  convert_to_output_ffmpeg
    { type := .ffmpeg, fps := 24, nominal_fps := 24, drop_frame := false,
      strict := strict, precise_time := init_ffmpeg strict minus hh mm ss sub_sec }

/-- The canonical SMPTE NDF string for four field values (what the renderer
produces for in-range fields; two-digit zero-padded, colon separators). -/
def smpte_ndf_string (hh mm ss ff : ℕ) : String :=
  pyFmtInt 2 (hh : ℤ) ++ ":" ++ pyFmtInt 2 (mm : ℤ) ++ ":" ++ pyFmtInt 2 (ss : ℤ) ++ ":" ++
    pyFmtInt 2 (ff : ℤ)

/-- State of a `DfttTimeRange` instance (`dftt_timerange.py`). -/
structure DfttTimeRange where
  start_precise_time : ℚ
  precise_duration : ℚ
  forward : Bool
  fps : ℚ
  strict_24h : Bool
deriving DecidableEq, Repr

/-- Embeds the `DfttTimeRange.__init__` path that constructs directly from
`start_precise_time` and `precise_duration`: zero duration raises, then the
24h constraint is validated. -/
def DfttTimeRange.mkPrecise (start_precise_time precise_duration : ℚ) (forward : Bool)
    (fps : ℚ) (strict_24h : Bool) : Res DfttTimeRange :=
  if precise_duration = 0 then .err .rangeValueError
  else if strict_24h ∧ |precise_duration| > 86400 then .err .rangeValueError
  else .ok ⟨start_precise_time, precise_duration, forward, fps, strict_24h⟩

/-- Embeds the `end_precise_time` property. -/
def DfttTimeRange.end_precise_time (r : DfttTimeRange) : ℚ :=
  if r.forward then r.start_precise_time + r.precise_duration
  else r.start_precise_time - r.precise_duration

/-- Embeds `DfttTimeRange.reverse`: a new range anchored at the old end, with
the same stored duration, flipped direction, same fps and same strict flag. -/
def DfttTimeRange.reverse (r : DfttTimeRange) : Res DfttTimeRange :=
  DfttTimeRange.mkPrecise r.end_precise_time r.precise_duration (!r.forward) r.fps r.strict_24h

/-- Embeds `DfttTimeRange.__eq__` for a `DfttTimeRange` operand: field-wise
comparison of start, duration, direction and fps (`strict_24h` is not
compared). -/
def DfttTimeRange.eq (a b : DfttTimeRange) : Bool :=
  decide (a.start_precise_time = b.start_precise_time) &&
    decide (a.precise_duration = b.precise_duration) &&
    (a.forward == b.forward) && decide (a.fps = b.fps)

/-- `reverse` applied twice (propagating a raised error). -/
def DfttTimeRange.reverseTwice (r : DfttTimeRange) : Res DfttTimeRange :=
  match r.reverse with
  | .ok r1 => r1.reverse
  | .err e => .err e

-- ======================================================================
-- Helper lemmas about the Python-semantics primitives
-- ======================================================================

theorem qmod_nonneg (a : ℚ) {b : ℚ} (hb : 0 < b) : 0 ≤ qmod a b := by
  unfold qmod
  have h := Int.floor_le (a / b)
  have h2 : (⌊a / b⌋ : ℚ) * b ≤ (a / b) * b := mul_le_mul_of_nonneg_right h (le_of_lt hb)
  rw [div_mul_cancel₀ a (ne_of_gt hb)] at h2
  linarith

theorem qmod_lt (a : ℚ) {b : ℚ} (hb : 0 < b) : qmod a b < b := by
  unfold qmod
  have h := Int.lt_floor_add_one (a / b)
  have h2 : (a / b) * b < ((⌊a / b⌋ : ℚ) + 1) * b := mul_lt_mul_of_pos_right h hb
  rw [div_mul_cancel₀ a (ne_of_gt hb)] at h2
  nlinarith

theorem qmod_eq_self {a b : ℚ} (h0 : 0 ≤ a) (hb : a < b) : qmod a b = a := by
  have hbpos : 0 < b := lt_of_le_of_lt h0 hb
  have hfloor : ⌊a / b⌋ = 0 := by
    apply Int.floor_eq_zero_iff.mpr
    constructor
    · positivity
    · rw [div_lt_one hbpos]; exact hb
  unfold qmod
  rw [hfloor]
  simp

theorem qmod_self_mul_eq_zero {b : ℚ} (k : ℤ) (hb : b ≠ 0) : qmod ((k : ℚ) * b) b = 0 := by
  unfold qmod
  rw [mul_div_assoc, div_self hb, mul_one]
  push_cast [Int.floor_intCast]
  ring

theorem qmod_eq_zero_iff {a b : ℚ} (hb : b ≠ 0) :
    qmod a b = 0 ↔ ∃ k : ℤ, a = (k : ℚ) * b := by
  constructor
  · intro h
    refine ⟨⌊a / b⌋, ?_⟩
    unfold qmod at h
    linarith
  · rintro ⟨k, rfl⟩
    exact qmod_self_mul_eq_zero k hb

theorem pyRound_intCast (n : ℤ) : pyRound (n : ℚ) = n := by
  unfold pyRound
  norm_num

theorem pyRound_natCast (n : ℕ) : pyRound (n : ℚ) = (n : ℤ) := by
  have h : ((n : ℤ) : ℚ) = (n : ℚ) := by push_cast; ring
  rw [← h, pyRound_intCast]

theorem float64_pos_eval {q : ℚ} (hq : 0 < q) :
    float64 q = (pyRound (q / 2 ^ (floorLog2 q - 52)) : ℚ) * 2 ^ (floorLog2 q - 52) := by
  unfold float64
  rw [if_neg (ne_of_gt hq), abs_of_pos hq, if_neg (not_lt.mpr hq.le)]
  simp

theorem qfloor_nat_div (a b : ℕ) : ⌊(a : ℚ) / (b : ℚ)⌋ = ((a / b : ℕ) : ℤ) := by
  rcases Nat.eq_zero_or_pos b with hb | hb
  · subst hb; simp
  · have hbq : (0 : ℚ) < (b : ℚ) := by exact_mod_cast hb
    rw [Int.floor_eq_iff]
    constructor
    · rw [le_div_iff₀ hbq]
      exact_mod_cast Nat.cast_le.mpr (Nat.div_mul_le_self a b)
    · rw [div_lt_iff₀ hbq]
      have h2 : a < (a / b + 1) * b := by
        have h1 := Nat.div_add_mod a b
        have h3 := Nat.mod_lt a hb
        calc a = b * (a / b) + a % b := h1.symm
          _ < b * (a / b) + b := by omega
          _ = (a / b + 1) * b := by ring
      exact_mod_cast Nat.cast_lt.mpr h2

theorem qmod_nat (a b : ℕ) : qmod (a : ℚ) (b : ℚ) = ((a % b : ℕ) : ℚ) := by
  unfold qmod
  rw [qfloor_nat_div]
  have h : ((a % b : ℕ) : ℚ) + ((b : ℕ) : ℚ) * ((a / b : ℕ) : ℚ) = (a : ℚ) := by
    exact_mod_cast congrArg (fun n : ℕ => (n : ℚ)) (Nat.mod_add_div a b)
  rw [Int.cast_natCast]
  linarith

-- ======================================================================
-- Claim theorems
-- ======================================================================

/-- The remainder of a nonzero rational by itself is zero. -/
theorem qmod_self {b : ℚ} (hb : b ≠ 0) : qmod b b = 0 := by
  have h := qmod_self_mul_eq_zero (b := b) 1 hb
  simpa using h

/-- The double nearest 29.97 (the literal in `__validate_drop_frame`). -/
theorem float64_2997 : float64 (2997/100 : ℚ) = 1054475631502295/35184372088832 := by
  rw [float64_pos_eval (by norm_num)]
  rw [show floorLog2 (2997/100 : ℚ) = 4 from by norm_num [floorLog2, log2Up]]
  norm_num [pyRound]

/-- The double nearest 59.94; it is exactly twice the 29.97 double. -/
theorem float64_5994 : float64 (5994/100 : ℚ) = 1054475631502295/17592186044416 := by
  rw [float64_pos_eval (by norm_num)]
  rw [show floorLog2 (5994/100 : ℚ) = 5 from by norm_num [floorLog2, log2Up]]
  norm_num [pyRound]

/-- The double nearest 119.88; it is exactly four times the 29.97 double. -/
theorem float64_11988 : float64 (11988/100 : ℚ) = 1054475631502295/8796093022208 := by
  rw [float64_pos_eval (by norm_num)]
  rw [show floorLog2 (11988/100 : ℚ) = 6 from by norm_num [floorLog2, log2Up]]
  norm_num [pyRound]

/-- The double nearest 23.98 (the literal in `__validate_drop_frame`). -/
theorem float64_2398 : float64 (2398/100 : ℚ) = 6749769941521531/281474976710656 := by
  rw [float64_pos_eval (by norm_num)]
  rw [show floorLog2 (2398/100 : ℚ) = 4 from by norm_num [floorLog2, log2Down, log2Up]]
  norm_num [pyRound]

/-- The double nearest 23.976. -/
theorem float64_23976 : float64 (23976/1000 : ℚ) = 210895126300459/8796093022208 := by
  rw [float64_pos_eval (by norm_num)]
  rw [show floorLog2 (23976/1000 : ℚ) = 4 from by norm_num [floorLog2, log2Up]]
  norm_num [pyRound]

/-- The double nearest 71.94 (= 3 × 23.98 in decimal, but not in doubles). -/
theorem float64_7194 : float64 (7194/100 : ℚ) = 1265581864035287/17592186044416 := by
  rw [float64_pos_eval (by norm_num)]
  rw [show floorLog2 (7194/100 : ℚ) = 6 from by norm_num [floorLog2, log2Up]]
  norm_num [pyRound]

/-- The double nearest 269.73 (= 9 × 29.97 in decimal, but not in doubles). -/
theorem float64_26973 : float64 (26973/100 : ℚ) = 593142542720041/2199023255552 := by
  rw [float64_pos_eval (by norm_num)]
  rw [show floorLog2 (26973/100 : ℚ) = 8 from by norm_num [floorLog2, log2Up]]
  norm_num [pyRound]

/-- The float 24.0 is exact. -/
theorem float64_24 : float64 (24 : ℚ) = 24 := by
  rw [float64_pos_eval (by norm_num)]
  rw [show floorLog2 (24 : ℚ) = 4 from by norm_num [floorLog2, log2Up]]
  norm_num [pyRound]

/-- The float 25.0 is exact. -/
theorem float64_25 : float64 (25 : ℚ) = 25 := by
  rw [float64_pos_eval (by norm_num)]
  rw [show floorLog2 (25 : ℚ) = 4 from by norm_num [floorLog2, log2Up]]
  norm_num [pyRound]

/-- Two-decimal rounding of the 29.97 double recovers the decimal 29.97. -/
theorem round2_d2997 : round2 (1054475631502295/35184372088832 : ℚ) = 2997/100 := by
  norm_num [round2, pyRound]

/-- Two-decimal rounding of the 59.94 double recovers the decimal 59.94. -/
theorem round2_d5994 : round2 (1054475631502295/17592186044416 : ℚ) = 5994/100 := by
  norm_num [round2, pyRound]

/-- Two-decimal rounding of the 119.88 double recovers the decimal 119.88. -/
theorem round2_d11988 : round2 (1054475631502295/8796093022208 : ℚ) = 11988/100 := by
  norm_num [round2, pyRound]

/-- Two-decimal rounding of the 23.98 double recovers the decimal 23.98. -/
theorem round2_d2398 : round2 (6749769941521531/281474976710656 : ℚ) = 2398/100 := by
  norm_num [round2, pyRound]

/-- Two-decimal rounding of the 23.976 double gives the decimal 23.98. -/
theorem round2_d23976 : round2 (210895126300459/8796093022208 : ℚ) = 2398/100 := by
  norm_num [round2, pyRound]

/-- Two-decimal rounding of the 71.94 double recovers the decimal 71.94. -/
theorem round2_d7194 : round2 (1265581864035287/17592186044416 : ℚ) = 7194/100 := by
  norm_num [round2, pyRound]

/-- Two-decimal rounding of the 269.73 double recovers the decimal 269.73. -/
theorem round2_d26973 : round2 (593142542720041/2199023255552 : ℚ) = 26973/100 := by
  norm_num [round2, pyRound]

/-- Two-decimal rounding is the identity on 24. -/
theorem round2_24 : round2 (24 : ℚ) = 24 := by
  norm_num [round2, pyRound]

/-- Two-decimal rounding is the identity on 25. -/
theorem round2_25 : round2 (25 : ℚ) = 25 := by
  norm_num [round2, pyRound]

/-- C5 counterexample: the claim says the caller's flag is kept when the
rounded fps is a multiple of 29.97, and otherwise drop_frame is set to whether
the rounded fps is a multiple of 23.98 (so 23.98-family rates are always
drop-frame).  On the program this fails: the float remainder tests only
recognize multiples whose doubles align.  Passing the float 71.94 — whose
two-decimal rounding is exactly 3 × 23.98 — yields drop_frame = False (the
program computes `71.94 % 23.98 == 23.979999...`); passing the float 269.73 —
exactly 9 × 29.97 — also yields False instead of keeping the caller's True
(`269.73 % 29.97 == 2.84e-14`). -/
theorem C5_counterexample :
    round2 (float64 (7194/100)) = ((3 : ℤ) : ℚ) * (2398/100) ∧
      validate_drop_frame true (float64 (7194/100)) = false ∧
      round2 (float64 (26973/100)) = ((9 : ℤ) : ℚ) * (2997/100) ∧
      validate_drop_frame true (float64 (26973/100)) = false := by
  refine ⟨?_, ?_, ?_, ?_⟩
  · rw [float64_7194, round2_d7194]
    norm_num
  · rw [float64_7194]
    unfold validate_drop_frame
    rw [float64_2997, float64_2398, round2_d7194, float64_7194]
    rw [if_neg (by norm_num [qmod])]
    exact decide_eq_false (by norm_num [qmod])
  · rw [float64_26973, round2_d26973]
    norm_num
  · rw [float64_26973]
    unfold validate_drop_frame
    rw [float64_2997, float64_2398, round2_d26973, float64_26973]
    rw [if_neg (by norm_num [qmod])]
    exact decide_eq_false (by norm_num [qmod])

/-- C5 amended: the drop-frame validation rule as the float tests actually
decide it, evaluated at the rates the library supports.  The caller's flag is
respected at the floats 29.97, 59.94 and 119.88 (their doubles are exact
binary multiples of the 29.97 double, so `round(fps,2) % 29.97 == 0.0`);
drop_frame is forced True at 23.98 and 23.976 (both round to the 23.98 double)
even when the caller passes False; and it is forced False at non-family
integer rates such as 24 and 25.  The correction is silent
(`validate_drop_frame` is total and never raises).  Real-number multiples
whose doubles do not align (71.94, 269.73) are NOT recognized — see the
counterexample. -/
theorem C5_drop_frame_validation :
    (∀ df : Bool, validate_drop_frame df (float64 (2997/100)) = df) ∧
      (∀ df : Bool, validate_drop_frame df (float64 (5994/100)) = df) ∧
      (∀ df : Bool, validate_drop_frame df (float64 (11988/100)) = df) ∧
      validate_drop_frame false (float64 (2398/100)) = true ∧
      validate_drop_frame false (float64 (23976/1000)) = true ∧
      validate_drop_frame true 24 = false ∧
      validate_drop_frame true 25 = false := by
  refine ⟨?_, ?_, ?_, ?_, ?_, ?_, ?_⟩
  · intro df
    rw [float64_2997]
    unfold validate_drop_frame
    rw [float64_2997, float64_2398, round2_d2997, float64_2997]
    rw [if_pos (qmod_self (by norm_num))]
  · intro df
    rw [float64_5994]
    unfold validate_drop_frame
    rw [float64_2997, float64_2398, round2_d5994, float64_5994]
    rw [if_pos ?_]
    rw [show (1054475631502295/17592186044416 : ℚ)
        = ((2 : ℤ) : ℚ) * (1054475631502295/35184372088832) from by norm_num]
    exact qmod_self_mul_eq_zero 2 (by norm_num)
  · intro df
    rw [float64_11988]
    unfold validate_drop_frame
    rw [float64_2997, float64_2398, round2_d11988, float64_11988]
    rw [if_pos ?_]
    rw [show (1054475631502295/8796093022208 : ℚ)
        = ((4 : ℤ) : ℚ) * (1054475631502295/35184372088832) from by norm_num]
    exact qmod_self_mul_eq_zero 4 (by norm_num)
  · rw [float64_2398]
    unfold validate_drop_frame
    rw [float64_2997, float64_2398, round2_d2398, float64_2398]
    rw [if_neg (by norm_num [qmod])]
    exact decide_eq_true (qmod_self (by norm_num))
  · rw [float64_23976]
    unfold validate_drop_frame
    rw [float64_2997, float64_2398, round2_d23976, float64_2398]
    rw [if_neg (by norm_num [qmod])]
    exact decide_eq_true (qmod_self (by norm_num))
  · unfold validate_drop_frame
    rw [float64_2997, float64_2398, round2_24, float64_24]
    rw [if_neg (by norm_num [qmod])]
    exact decide_eq_false (by norm_num [qmod])
  · unfold validate_drop_frame
    rw [float64_2997, float64_2398, round2_25, float64_25]
    rw [if_neg (by norm_num [qmod])]
    exact decide_eq_false (by norm_num [qmod])

/-- C7 (code_bug evidence): constructing a `DfttTimecode` from an existing
`DfttTimecode` raises `TypeError` instead of returning the same instance:
`__new__` does return the instance, but `type.__call__` then invokes
`__init__`, whose `singledispatchmethod` has no overload registered for
`DfttTimecode` values and therefore runs the base implementation, which raises.
The claim (and the class docstring) say the same instance is returned. -/
theorem C7_identity_passthrough_raises (t : DfttTimecode) (fps : ℚ)
    (drop_frame strict : Bool) :
    DfttTimecode.construct (.tcVal t) fps drop_frame strict = .err .pyTypeError := rfl

/-- C9 (code_bug evidence): rendering with an unrecognized destination format
name raises `AttributeError` (from `getattr` without a default) for every
timecode; the claimed soft fallback to SMPTE is dead code. -/
theorem C9_unknown_format_raises (tc : DfttTimecode) :
    timecode_output tc "xyz" = .err .attributeError := rfl

/-- C6 (code_bug evidence): `__add__` mutates its left operand.  For
`a = Timecode(time 1s, fps 24, strict=False)` and
`b = Timecode(time 1s, fps 24, strict=True)` (equal fps and drop_frame), the
call `a + b` executes `self.__strict = self.__strict or other.__strict`, so
after the call `a.is_strict` has flipped from False to True, contradicting the
claim (and the class docstring) that operands are left unchanged. -/
theorem C6_add_mutates_operand :
    (DfttTimecode.add ⟨.time, 24, 24, false, false, 1⟩ ⟨.time, 24, 24, false, true, 1⟩).map
        (fun p => p.2.strict) = .ok true ∧
      (⟨.time, 24, 24, false, false, 1⟩ : DfttTimecode).strict = false := by
  constructor
  · unfold DfttTimecode.add
    rw [if_pos ⟨rfl, rfl⟩]
    rfl
  · rfl

/-- C10: `reverse` is an involution on time ranges.  For every well-formed
`DfttTimeRange` (nonzero stored duration; duration within 24h when
`strict_24h`), reversing twice succeeds and the result compares equal to the
original under `DfttTimeRange.__eq__` (same start, duration, direction and
fps). -/
theorem C10_reverse_involution (r : DfttTimeRange) (hd : r.precise_duration ≠ 0)
    (hs : r.strict_24h = true → |r.precise_duration| ≤ 86400) :
    ∃ r2 : DfttTimeRange, r.reverseTwice = .ok r2 ∧ DfttTimeRange.eq r2 r = true := by
  have hcond : ∀ (s : ℚ) (fwd : Bool),
      DfttTimeRange.mkPrecise s r.precise_duration fwd r.fps r.strict_24h
        = .ok ⟨s, r.precise_duration, fwd, r.fps, r.strict_24h⟩ := by
    intro s fwd
    unfold DfttTimeRange.mkPrecise
    rw [if_neg hd, if_neg ?_]
    rintro ⟨h1, h2⟩
    exact absurd (hs h1) (not_le.mpr h2)
  refine ⟨⟨DfttTimeRange.end_precise_time
      ⟨r.end_precise_time, r.precise_duration, !r.forward, r.fps, r.strict_24h⟩,
      r.precise_duration, !(!r.forward), r.fps, r.strict_24h⟩, ?_, ?_⟩
  · unfold DfttTimeRange.reverseTwice DfttTimeRange.reverse
    rw [hcond]
    dsimp only
    rw [hcond]
  · unfold DfttTimeRange.eq DfttTimeRange.end_precise_time
    cases hf : r.forward <;> simp [hf]

/-- Witness for C10: a concrete forward range (start 0s, duration 10s, 24 fps,
no 24h constraint) reversed twice compares equal to itself. -/
theorem C10_reverse_involution_witness :
    ∃ r2 : DfttTimeRange,
      DfttTimeRange.reverseTwice ⟨0, 10, true, 24, false⟩ = .ok r2 ∧
        DfttTimeRange.eq r2 ⟨0, 10, true, 24, false⟩ = true :=
  C10_reverse_involution ⟨0, 10, true, 24, false⟩ (by norm_num) (by simp)

/-- Closed-form value of a strict non-drop-frame SMPTE parse at an integer frame
rate for canonical in-range fields: the frame index over the frame rate. -/
theorem init_smpte_ndf_eval (fps hh mm ss ff : ℕ) (hh23 : hh ≤ 23) (hmm : mm ≤ 59)
    (hss : ss ≤ 59) (hff : ff < fps) :
    init_smpte (fps : ℚ) false true false hh mm ss ff
      = .ok (((ff + fps * (ss + 60 * mm + 3600 * hh) : ℕ) : ℚ) / (fps : ℚ)) := by
  have hfps : 0 < fps := Nat.pos_of_ne_zero (by rintro rfl; omega)
  unfold init_smpte
  simp only [Int.ceil_natCast, Bool.false_eq_true, false_and, if_false, false_or]
  rw [if_neg (by omega)]
  have hN : (ff : ℚ) + (fps : ℚ) * ((ss : ℚ) + (mm : ℚ) * 60 + (hh : ℚ) * 3600)
      = ((ff + fps * (ss + 60 * mm + 3600 * hh) : ℕ) : ℚ) := by
    push_cast
    ring
  simp only [if_true, Int.cast_natCast]
  rw [hN]
  have hlt : (ff + fps * (ss + 60 * mm + 3600 * hh) : ℕ) < fps * 86400 := by
    have h1 : ss + 60 * mm + 3600 * hh ≤ 86399 := by omega
    calc ff + fps * (ss + 60 * mm + 3600 * hh)
        ≤ (fps - 1) + fps * 86399 := by
          have := Nat.mul_le_mul_left fps h1
          omega
      _ < fps * 86400 := by
          have h2 : fps * 86400 = fps * 86399 + fps := by ring
          omega
  have hmod : qmod ((ff + fps * (ss + 60 * mm + 3600 * hh) : ℕ) : ℚ)
      ((fps : ℚ) * 86400) = ((ff + fps * (ss + 60 * mm + 3600 * hh) : ℕ) : ℚ) := by
    apply qmod_eq_self (by positivity)
    calc ((ff + fps * (ss + 60 * mm + 3600 * hh) : ℕ) : ℚ)
        < ((fps * 86400 : ℕ) : ℚ) := by exact_mod_cast hlt
      _ = (fps : ℚ) * 86400 := by push_cast; ring
  rw [hmod]

/-- Value of the double nearest to 1/1000 (what CPython computes for
`1 / 1000`): `0.001000000000000000020816681711721685...`. -/
theorem float64_one_thousandth :
    float64 (1/1000) = 1152921504606847/1152921504606846976 := by
  rw [float64_pos_eval (by norm_num)]
  rw [show floorLog2 (1/1000 : ℚ) = -10 from by norm_num [floorLog2, log2Down]]
  norm_num [pyRound]

/-- The double nearest to 1/1000 is itself a double (float64 is idempotent on
it). -/
theorem float64_one_thousandth_fix :
    float64 (1152921504606847/1152921504606846976)
      = 1152921504606847/1152921504606846976 := by
  rw [float64_pos_eval (by norm_num)]
  rw [show floorLog2 ((1152921504606847 : ℚ)/1152921504606846976) = -10 from by
    norm_num [floorLog2, log2Down]]
  norm_num [pyRound]

/-- C1 counterexample: the claim says every construction path stores an exact
rational with no binary-float rounding.  The SRT path computes
`hh*3600 + mm*60 + ss + sub_sec/1000` with float division: parsing
`'00:00:00,001'` (strict, the default) stores the double nearest to 1/1000,
which is not the exact rational 1/1000. -/
theorem C1_counterexample : init_srt true false 0 0 0 1 ≠ 1/1000 := by
  have h : init_srt true false 0 0 0 1 = 1152921504606847/1152921504606846976 := by
    unfold init_srt apply_strict
    rw [show ((0 * 3600 + 0 * 60 + 0 : ℕ) : ℚ) = 0 from by norm_num,
        show ((1 : ℕ) : ℚ) = 1 from by norm_num]
    rw [float64_one_thousandth, zero_add, float64_one_thousandth_fix]
    simp only [Bool.false_eq_true, if_false, if_true]
    exact qmod_eq_self (by norm_num) (by norm_num)
  rw [h]
  norm_num

/-- C1 amended: construction paths that stay in rational arithmetic are exact.
Constructing from a frame count `n` at an exact rational fps (a `Fraction`
argument in Python — required to express fps = 30000/1001 at all) with the
default strict mode stores `precise_time = n / fps` exactly, and reading back
`framecount` returns exactly `n` whenever `n` is within a day of frames
(`n < fps * 86400`): the frames → seconds → frames conversion is lossless.
The paths that compute sub-second fractions through binary floats (srt, dlp,
ffmpeg) are excluded — see the counterexample. -/
theorem C1_frame_roundtrip_exact (n : ℕ) (fps : ℚ) (hfps : 0 < fps)
    (hn : (n : ℚ) < fps * 86400) :
    DfttTimecode.framecount
      { type := .frame, fps := fps, nominal_fps := ⌈fps⌉, drop_frame := false,
        strict := true, precise_time := init_frame fps false true (n : ℤ) } = n := by
  unfold DfttTimecode.framecount init_frame
  simp only [Bool.false_eq_true, if_false, if_true]
  have hceil : fps * 86400 ≤ ((⌈fps⌉ : ℤ) : ℚ) * 86400 := by
    have := Int.le_ceil fps
    nlinarith
  have hmod : qmod (((n : ℤ) : ℚ)) (((⌈fps⌉ : ℤ) : ℚ) * 86400) = (n : ℚ) := by
    rw [Int.cast_natCast]
    exact qmod_eq_self (by positivity) (lt_of_lt_of_le hn hceil)
  rw [hmod, div_mul_cancel₀ _ (ne_of_gt hfps)]
  exact pyRound_natCast n

/-- Witness for C1 amended: 1000 frames at fps = 30000/1001 (exact 29.97) read
back as exactly 1000. -/
theorem C1_frame_roundtrip_exact_witness :
    DfttTimecode.framecount
      { type := .frame, fps := 30000/1001, nominal_fps := ⌈(30000/1001 : ℚ)⌉,
        drop_frame := false, strict := true,
        precise_time := init_frame (30000/1001) false true (1000 : ℤ) } = 1000 :=
  C1_frame_roundtrip_exact 1000 (30000/1001) (by norm_num) (by norm_num)

/-- The int-times-int-over-int expression inside `get_audio_sample_count`
denotes `precise_time * sample_rate` (before float rounding). -/
theorem get_audio_sample_count_eq (tc : DfttTimecode) (rate : ℤ) :
    tc.get_audio_sample_count rate = ⌊float64 (tc.precise_time * (rate : ℚ))⌋ := by
  unfold DfttTimecode.get_audio_sample_count
  push_cast
  rw [mul_div_right_comm, Rat.num_div_den]

/-- The integer 2^53 + 1 is the first positive integer that is not a double: it
rounds (ties to even) to 2^53. -/
theorem float64_pow53_succ : float64 (2 ^ 53 + 1 : ℚ) = (2 ^ 53 : ℚ) := by
  rw [float64_pos_eval (by norm_num)]
  rw [show floorLog2 (2 ^ 53 + 1 : ℚ) = 53 from by norm_num [floorLog2, log2Up]]
  norm_num [pyRound]

/-- C8 (code_bug evidence): `get_audio_sample_count` computes
`floor(numerator * sample_rate / denominator)` with CPython's `/` — float true
division — not exact integer arithmetic.  For `precise_time = (2^53+1)/48000`
seconds the code returns 2^53 = 9007199254740992 samples at 48 kHz, while the
claimed exact value is 2^53 + 1 = 9007199254740993.  The two concrete examples
of the claim ('00:00:01:00' and '00:00:00:01' at 24 fps, where the float detour
is exact) do hold. -/
theorem C8_audio_samples :
    (DfttTimecode.get_audio_sample_count
        ⟨.time, 24, 24, false, false, (2 ^ 53 + 1 : ℚ)/48000⟩ 48000 = 2 ^ 53) ∧
      (⌊((2 ^ 53 + 1 : ℚ)/48000) * ((48000 : ℤ) : ℚ)⌋ = 2 ^ 53 + 1) ∧
      (init_smpte 24 false true false 0 0 1 0 = .ok 1) ∧
      (DfttTimecode.get_audio_sample_count ⟨.smpte, 24, 24, false, true, 1⟩ 48000
        = 48000) ∧
      (init_smpte 24 false true false 0 0 0 1 = .ok (1/24)) ∧
      (DfttTimecode.get_audio_sample_count ⟨.smpte, 24, 24, false, true, 1/24⟩ 48000
        = 2000) := by
  refine ⟨?_, ?_, ?_, ?_, ?_, ?_⟩
  · rw [get_audio_sample_count_eq]
    have h : ((2 ^ 53 + 1 : ℚ)/48000) * ((48000 : ℤ) : ℚ) = (2 ^ 53 + 1 : ℚ) := by
      norm_num
    dsimp only
    rw [h, float64_pow53_succ]
    norm_num
  · norm_num
  · rw [show (24 : ℚ) = ((24 : ℕ) : ℚ) from by norm_num,
        init_smpte_ndf_eval 24 0 0 1 0 (by norm_num) (by norm_num) (by norm_num)
          (by norm_num)]
    norm_num
  · rw [get_audio_sample_count_eq]
    have h : float64 ((1 : ℚ) * ((48000 : ℤ) : ℚ)) = 48000 := by
      rw [show ((1 : ℚ) * ((48000 : ℤ) : ℚ)) = 48000 from by norm_num]
      rw [float64_pos_eval (by norm_num)]
      rw [show floorLog2 (48000 : ℚ) = 15 from by norm_num [floorLog2, log2Up]]
      norm_num [pyRound]
    dsimp only
    rw [h]
    norm_num
  · rw [show (24 : ℚ) = ((24 : ℕ) : ℚ) from by norm_num,
        init_smpte_ndf_eval 24 0 0 0 1 (by norm_num) (by norm_num) (by norm_num)
          (by norm_num)]
    norm_num
  · rw [get_audio_sample_count_eq]
    have h : float64 ((1/24 : ℚ) * ((48000 : ℤ) : ℚ)) = 2000 := by
      rw [show ((1/24 : ℚ) * ((48000 : ℤ) : ℚ)) = 2000 from by norm_num]
      rw [float64_pos_eval (by norm_num)]
      rw [show floorLog2 (2000 : ℚ) = 10 from by norm_num [floorLog2, log2Up]]
      norm_num [pyRound]
    dsimp only
    rw [h]
    norm_num

/-- C3 counterexample: the claim says `0 <= precise_time < 86400` after every
strict construction including negative-signed input.  But `__init_smpte`
applies the leading minus AFTER the strict modulus: parsing `'-01:00:00:00'`
at 24 fps with `strict=True` stores `precise_time = -3600`, outside
`[0, 86400)`. -/
theorem C3_counterexample :
    init_smpte 24 false true true 1 0 0 0 = .ok (-3600) ∧ ¬ (0 ≤ (-3600 : ℚ)) := by
  constructor
  · unfold init_smpte
    have hceil : (⌈(24 : ℚ)⌉ : ℤ) = 24 := by norm_num
    rw [hceil]
    rw [if_neg (by norm_num)]
    simp only [Bool.false_eq_true, false_and, if_false, if_true]
    congr 1
    push_cast
    norm_num [qmod]
  · norm_num

/-- The frame index of in-range SMPTE fields is below one day of frames. -/
theorem smpte_frame_bound (fps hh mm ss ff : ℕ) (hh23 : hh ≤ 23) (hmm : mm ≤ 59)
    (hss : ss ≤ 59) (hff : ff < fps) :
    ff + fps * (ss + 60 * mm + 3600 * hh) < fps * 86400 := by
  have h1 : ss + 60 * mm + 3600 * hh ≤ 86399 := by omega
  have := Nat.mul_le_mul_left fps h1
  have h2 : fps * 86400 = fps * 86399 + fps := by ring
  omega

/-- C3 amended: the strict range invariant `0 ≤ precise_time < 86400` does hold
for: (1) strict SMPTE construction from non-negative input at any positive
integer frame rate (non-drop-frame), for every field value the regex can
produce — including hours of 24 and above, which wrap (e.g. '25:00:00:00' at
24 fps yields 3600 s); (2) strict drop-frame SMPTE construction from
non-negative input at any positive frame rate; (3) every value passed through
`__apply_strict` — hence the srt/dlp/ffmpeg/fcpx/time string paths and all
numeric constructor paths, which negate before applying strict; (4, 5) the
results of `+` and `-` between timecodes whenever the result is strict (the
result's flag is `self.strict OR other.strict`); (6) unary negation of a
strict timecode (the result's flag equals the operand's).  It fails for
negative-signed SMPTE input (see the counterexample) because there the sign is
applied after the modulus. -/
theorem C3_strict_range :
    (∀ fps hh mm ss ff : ℕ, 0 < fps →
        ∀ q : ℚ, init_smpte (fps : ℚ) false true false hh mm ss ff = .ok q →
          0 ≤ q ∧ q < 86400) ∧
    (∀ (fps : ℚ) (hh mm ss ff : ℕ), 0 < fps →
        ∀ q : ℚ, init_smpte fps true true false hh mm ss ff = .ok q →
          0 ≤ q ∧ q < 86400) ∧
    (∀ t : ℚ, 0 ≤ apply_strict true t ∧ apply_strict true t < 86400) ∧
    (∀ a b res self2 : DfttTimecode, DfttTimecode.add a b = .ok (res, self2) →
        res.strict = true → 0 ≤ res.precise_time ∧ res.precise_time < 86400) ∧
    (∀ a b res self2 : DfttTimecode, DfttTimecode.sub a b = .ok (res, self2) →
        res.strict = true → 0 ≤ res.precise_time ∧ res.precise_time < 86400) ∧
    (∀ a : DfttTimecode, a.strict = true →
        0 ≤ (DfttTimecode.neg a).precise_time ∧
          (DfttTimecode.neg a).precise_time < 86400) := by
  have hstrict : ∀ t : ℚ, 0 ≤ apply_strict true t ∧ apply_strict true t < 86400 := by
    intro t
    unfold apply_strict
    rw [if_pos rfl]
    exact ⟨qmod_nonneg t (by norm_num), qmod_lt t (by norm_num)⟩
  refine ⟨?_, ?_, hstrict, ?_, ?_, ?_⟩
  · intro fps hh mm ss ff hfps q hq
    have hfpsq : (0 : ℚ) < (fps : ℚ) := by exact_mod_cast hfps
    unfold init_smpte at hq
    simp only [Int.ceil_natCast, eq_self_iff_true, if_true, true_and, Bool.false_eq_true,
      false_and, if_false, Int.cast_natCast] at hq
    split at hq
    · exact absurd hq (by simp)
    · injection hq with hq
      subst hq
      have hm : (0 : ℚ) < (fps : ℚ) * 86400 := by positivity
      constructor
      · exact div_nonneg (qmod_nonneg _ hm) hfpsq.le
      · rw [div_lt_iff₀ hfpsq]
        calc qmod _ ((fps : ℚ) * 86400) < (fps : ℚ) * 86400 := qmod_lt _ hm
          _ = 86400 * (fps : ℚ) := by ring
  · intro fps hh mm ss ff hfps q hq
    unfold init_smpte at hq
    simp only [eq_self_iff_true, if_true, true_and, Bool.false_eq_true, if_false] at hq
    split at hq
    · exact absurd hq (by simp)
    · split at hq
      · exact absurd hq (by simp)
      · injection hq with hq
        subst hq
        have hm : (0 : ℚ) < fps * 86400 := by positivity
        constructor
        · exact div_nonneg (qmod_nonneg _ hm) hfps.le
        · rw [div_lt_iff₀ hfps]
          calc qmod _ (fps * 86400) < fps * 86400 := qmod_lt _ hm
            _ = 86400 * fps := by ring
  · intro a b res self2 h hres
    unfold DfttTimecode.add at h
    split at h
    · injection h with h
      injection h with h1 h2
      subst h1
      unfold set_type_norounding DfttTimecode.fromFraction at hres ⊢
      dsimp only at hres ⊢
      rw [hres]
      exact hstrict _
    · exact absurd h (by simp)
  · intro a b res self2 h hres
    unfold DfttTimecode.sub at h
    split at h
    · injection h with h
      injection h with h1 h2
      subst h1
      unfold set_type_norounding DfttTimecode.fromFraction at hres ⊢
      dsimp only at hres ⊢
      rw [hres]
      exact hstrict _
    · exact absurd h (by simp)
  · intro a ha
    unfold DfttTimecode.neg set_type_norounding DfttTimecode.fromFraction
    dsimp only
    rw [ha]
    exact hstrict _

/-- Witness for C3 amended: the spec's own strict-wraparound scenario —
parsing '25:00:00:00' at 24 fps with strict on yields 3600 s (01:00:00:00),
inside `[0, 86400)`. -/
theorem C3_strict_range_witness : 0 ≤ (3600 : ℚ) ∧ (3600 : ℚ) < 86400 :=
  C3_strict_range.1 24 25 0 0 0 (by norm_num) 3600
    (by
      unfold init_smpte
      simp only [Int.ceil_natCast, eq_self_iff_true, if_true, true_and,
        Bool.false_eq_true, false_and, if_false, Int.cast_natCast]
      rw [if_neg (by norm_num)]
      congr 1
      push_cast
      norm_num [qmod])

/-- The nominal frame rate of 29.97 fps is 30. -/
theorem ceil_2997 : (⌈(2997/100 : ℚ)⌉ : ℤ) = 30 := by
  rw [Int.ceil_eq_iff]
  norm_num

/-- C4 counterexample: the claim says drop-frame parsing raises the
ValueError-kind error EXACTLY when `mm % 10 ≠ 0 ∧ ss = 0 ∧ ff ∈ {0, 1}` (at
29.97 fps, where drop_per_min = 2).  But `'00:00:00;30'` — whose fields satisfy
none of that condition (mm % 10 = 0) — also raises `DFTTTimecodeValueError`,
from the earlier frame-range check `ff > nominal_fps - 1`. -/
theorem C4_counterexample :
    init_smpte (2997/100) true true false 0 0 0 30 = .err .valueError ∧
      ¬ ((0 : ℕ) % 10 ≠ 0 ∧ (0 : ℕ) = 0 ∧
          ((30 : ℚ) = 0 ∨ (30 : ℚ) = ((⌈(2997/100 : ℚ)⌉ : ℤ) : ℚ) / 30 * 2 - 1)) := by
  constructor
  · unfold init_smpte
    rw [ceil_2997]
    rw [if_pos (by norm_num)]
  · rw [ceil_2997]
    norm_num

/-- C4 amended: at 29.97 fps drop-frame, parsing raises the ValueError-kind
error exactly when the frame field is out of range for the nominal rate
(`ff ≥ 30`) OR the claimed dropped-frame condition holds
(`mm % 10 ≠ 0 ∧ ss = 0 ∧ ff ∈ {0, drop_per_min - 1}` with drop_per_min = 2);
and `'00:01:00;02'` parses successfully to precise time 20000/333 s, whose
frame count is 1800 — the first legal frame of that minute. -/
theorem C4_df_rejection :
    (∀ hh mm ss ff : ℕ,
        (init_smpte (2997/100) true true false hh mm ss ff = .err .valueError
          ↔ 30 ≤ ff ∨ (mm % 10 ≠ 0 ∧ ss = 0 ∧ (ff = 0 ∨ ff = 1)))) ∧
      init_smpte (2997/100) true true false 0 1 0 0 = .err .valueError ∧
      init_smpte (2997/100) true true false 0 1 0 2 = .ok (20000/333) ∧
      pyRound ((20000/333 : ℚ) * (2997/100)) = 1800 := by
  refine ⟨?_, ?_, ?_, ?_⟩
  · intro hh mm ss ff
    unfold init_smpte
    rw [ceil_2997]
    by_cases h30 : (ff : ℤ) > 30 - 1
    · rw [if_pos h30]
      have : 30 ≤ ff := by exact_mod_cast (by omega : (30 : ℤ) ≤ (ff : ℤ))
      simp [this]
    · rw [if_neg h30]
      have hff : ff ≤ 29 := by
        have : (ff : ℤ) ≤ 29 := by omega
        exact_mod_cast this
      have hcast : ((ff : ℚ) = 0 ∨ (ff : ℚ) = ((30 : ℤ) : ℚ) / 30 * 2 - 1)
          ↔ (ff = 0 ∨ ff = 1) := by
        constructor
        · rintro (h | h)
          · left; exact_mod_cast h
          · right
            have : (ff : ℚ) = 1 := by rw [h]; norm_num
            exact_mod_cast this
        · rintro (h | h) <;> subst h
          · left; norm_num
          · right; norm_num
      by_cases hc : mm % 10 ≠ 0 ∧ ss = 0 ∧ (ff = 0 ∨ ff = 1)
      · rw [if_pos ⟨rfl, hc.1, hc.2.1, hcast.mpr hc.2.2⟩]
        simp only [eq_self_iff_true, true_iff]
        right
        exact hc
      · rw [if_neg ?_]
        · constructor
          · intro h
            exact absurd h (by simp)
          · rintro (h | h)
            · omega
            · exact absurd h hc
        · rintro ⟨-, h1, h2, h3⟩
          exact hc ⟨h1, h2, hcast.mp h3⟩
  · unfold init_smpte
    rw [ceil_2997]
    rw [if_neg (by norm_num)]
    rw [if_pos ⟨rfl, by norm_num, rfl, Or.inl (by norm_num)⟩]
  · unfold init_smpte
    rw [ceil_2997]
    rw [if_neg (by norm_num)]
    rw [if_neg ?_]
    · simp only [eq_self_iff_true, if_true, Bool.false_eq_true, if_false]
      congr 1
      push_cast
      rw [show ((0 : ℚ) * 3600 + 1 * 60 + 0) * 30 + 2 - 30 / 30 * 2 * (1 - 0)
          = 1800 from by norm_num]
      rw [qmod_eq_self (by norm_num) (by norm_num)]
      norm_num
    · rintro ⟨-, -, -, h⟩
      rcases h with h | h
      · norm_num at h
      · norm_num at h
  · rw [show (20000/333 : ℚ) * (2997/100) = 1800 from by norm_num]
    rw [show (1800 : ℚ) = ((1800 : ℤ) : ℚ) from by norm_num]
    exact pyRound_intCast 1800

/-- Witness for C4 (for the universally quantified equivalence): the dropped
frame number 30 at 29.97 drop-frame is rejected. -/
theorem C4_df_rejection_witness :
    init_smpte (2997/100) true true false 0 0 0 30 = .err .valueError :=
  (C4_df_rejection.1 0 0 0 30).mpr (Or.inl (by norm_num))

/-- Quotient and remainder of a decomposition `r + d * q` with `r < d`. -/
theorem nat_div_mod_decomp {r d : ℕ} (q : ℕ) (h : r < d) :
    (r + d * q) / d = q ∧ (r + d * q) % d = r := by
  constructor
  · rw [Nat.add_mul_div_left r q (by omega), Nat.div_eq_of_lt h]
    omega
  · rw [Nat.add_mul_mod_self_left, Nat.mod_eq_of_lt h]

/-- The successive divmod chain taken by the SMPTE renderer, on the nominal
frame count of canonical fields. -/
theorem smpte_parts_chain (fps hh mm ss ff : ℕ) (hmm : mm ≤ 59) (hss : ss ≤ 59)
    (hff : ff < fps) :
    (ff + fps * (ss + 60 * mm + 3600 * hh)) / (3600 * fps) = hh ∧
      (ff + fps * (ss + 60 * mm + 3600 * hh)) % (3600 * fps) = ff + fps * (ss + 60 * mm) ∧
      (ff + fps * (ss + 60 * mm)) / (60 * fps) = mm ∧
      (ff + fps * (ss + 60 * mm)) % (60 * fps) = ff + fps * ss ∧
      (ff + fps * ss) / fps = ss ∧
      (ff + fps * ss) % fps = ff := by
  have hr1 : ff + fps * (ss + 60 * mm) < 3600 * fps := by
    have h1 : ss + 60 * mm ≤ 3599 := by omega
    have := Nat.mul_le_mul_left fps h1
    omega
  have hr2 : ff + fps * ss < 60 * fps := by
    have := Nat.mul_le_mul_left fps hss
    omega
  have hN : ff + fps * (ss + 60 * mm + 3600 * hh)
      = (ff + fps * (ss + 60 * mm)) + (3600 * fps) * hh := by ring
  have hR1 : ff + fps * (ss + 60 * mm) = (ff + fps * ss) + (60 * fps) * mm := by ring
  have hR2 : ff + fps * ss = ff + fps * ss := rfl
  have h1 := nat_div_mod_decomp (r := ff + fps * (ss + 60 * mm)) hh hr1
  have h2 := nat_div_mod_decomp (r := ff + fps * ss) mm hr2
  have h3 := nat_div_mod_decomp (r := ff) ss hff
  refine ⟨?_, ?_, ?_, ?_, ?_, ?_⟩
  · rw [hN]; exact h1.1
  · rw [hN]; exact h1.2
  · rw [hR1]; exact h2.1
  · rw [hR1]; exact h2.2
  · exact h3.1
  · exact h3.2

/-- Evaluation of the renderer's divmod helper on a canonical nominal frame
count at an integer frame rate. -/
theorem convert_framecount_parts_eval (fps hh mm ss ff : ℕ) (hmm : mm ≤ 59)
    (hss : ss ≤ 59) (hff : ff < fps) :
    convert_framecount_to_smpte_parts ((ff + fps * (ss + 60 * mm + 3600 * hh) : ℕ) : ℚ)
        ((fps : ℕ) : ℤ)
      = ((hh : ℤ), (mm : ℤ), (ss : ℤ), (ff : ℤ)) := by
  obtain ⟨c1, c2, c3, c4, c5, c6⟩ := smpte_parts_chain fps hh mm ss ff hmm hss hff
  unfold convert_framecount_to_smpte_parts
  have h3600 : ((3600 * ((fps : ℕ) : ℤ) : ℤ) : ℚ) = ((3600 * fps : ℕ) : ℚ) := by
    push_cast; ring
  have h60 : ((60 * ((fps : ℕ) : ℤ) : ℤ) : ℚ) = ((60 * fps : ℕ) : ℚ) := by
    push_cast; ring
  have hf : (((fps : ℕ) : ℤ) : ℚ) = ((fps : ℕ) : ℚ) := by push_cast; ring
  dsimp only
  rw [h3600, h60, hf]
  simp only [qfloor_nat_div, qmod_nat, pyRound_natCast]
  rw [c1, c2, c3, c4, c5, c6]

/-- Rendering a non-drop-frame timecode whose precise time is `N / fps` frames
with canonical in-range fields produces the canonical zero-padded SMPTE NDF
string. -/
theorem convert_smpte_ndf_eval (fps hh mm ss ff : ℕ) (hmm : mm ≤ 59)
    (hss : ss ≤ 59) (hff : ff < fps) (hfps99 : fps ≤ 99) :
    convert_to_output_smpte
        { type := .smpte, fps := (fps : ℚ), nominal_fps := ⌈(fps : ℚ)⌉,
          drop_frame := false, strict := true,
          precise_time := ((ff + fps * (ss + 60 * mm + 3600 * hh) : ℕ) : ℚ) / (fps : ℚ) }
      = smpte_ndf_string hh mm ss ff := by
  have hfps : 0 < fps := by omega
  have hfpsq : (0 : ℚ) < (fps : ℚ) := by exact_mod_cast hfps
  unfold convert_to_output_smpte
  rw [div_mul_cancel₀ _ (ne_of_gt hfpsq), pyRound_natCast]
  dsimp only
  have hminus : (decide (((ff + fps * (ss + 60 * mm + 3600 * hh) : ℕ) : ℤ) < 0)) = false := by
    simp
    positivity
  rw [hminus]
  simp only [Bool.false_eq_true, if_false, not_false_eq_true, if_true,
    Int.cast_natCast, Int.ceil_natCast]
  rw [convert_framecount_parts_eval fps hh mm ss ff hmm hss hff]
  have hlt100 : ((fps : ℕ) : ℚ) < 100 := by exact_mod_cast Nat.lt_of_le_of_lt hfps99 (by norm_num)
  rw [if_pos hlt100]
  rfl

/-- C2 amended (positive part): for SMPTE non-drop-frame at an integer frame
rate up to 99 fps, parsing a canonical zero-padded in-range string and
rendering it back reproduces the string exactly.  (The universal round-trip
fails elsewhere — see the counterexample.) -/
theorem C2_smpte_ndf_roundtrip (fps hh mm ss ff : ℕ) (hh23 : hh ≤ 23) (hmm : mm ≤ 59)
    (hss : ss ≤ 59) (hff : ff < fps) (hfps99 : fps ≤ 99) :
    smpte_parse_render (fps : ℚ) false true false hh mm ss ff
      = .ok (smpte_ndf_string hh mm ss ff) := by
  unfold smpte_parse_render
  rw [init_smpte_ndf_eval fps hh mm ss ff hh23 hmm hss hff]
  unfold Res.map
  dsimp only
  rw [convert_smpte_ndf_eval fps hh mm ss ff hmm hss hff hfps99]

/-- Witness for C2 amended: '01:02:03:04' at 24 fps round-trips exactly. -/
theorem C2_smpte_ndf_roundtrip_witness :
    smpte_parse_render ((24 : ℕ) : ℚ) false true false 1 2 3 4 = .ok "01:02:03:04" := by
  rw [C2_smpte_ndf_roundtrip 24 1 2 3 4 (by norm_num) (by norm_num) (by norm_num)
    (by norm_num) (by norm_num)]
  rfl

/-- One half is a double: float64 is the identity on it. -/
theorem float64_half : float64 (1/2 : ℚ) = 1/2 := by
  rw [float64_pos_eval (by norm_num)]
  rw [show floorLog2 (1/2 : ℚ) = -1 from by norm_num [floorLog2, log2Down]]
  norm_num [pyRound]

/-- C2 counterexample: the ffmpeg string `'00:00:00.5'` is a valid input
(regex `HH:MM:SS.(\d?\d+)`), parses to exactly 0.5 s (0.5 is a dyadic rational,
so the float conversion is exact), but renders back with a fixed two-digit
sub-second field as `'00:00:00.50'` — not the original string.  So
`render(parse(s, F), F) = s` fails for the ffmpeg format. -/
theorem C2_counterexample :
    ffmpeg_parse_render true false 0 0 0 5 ≠ "00:00:00.5" ∧
      ffmpeg_parse_render true false 0 0 0 5 = "00:00:00.50" := by
  have hval : init_ffmpeg true false 0 0 0 5 = 1/2 := by
    unfold init_ffmpeg
    rw [show (numDigits 5) = 1 from rfl]
    rw [show ((5 : ℕ) : ℚ) / (10 : ℚ) ^ (1 : ℕ) = 1/2 from by norm_num]
    rw [float64_half]
    dsimp only
    rw [show ((0 * 3600 + 0 * 60 + 0 : ℕ) : ℚ) + 1/2 = 1/2 from by norm_num]
    rw [float64_half]
    simp only [Bool.false_eq_true, if_false]
    unfold apply_strict
    rw [if_pos rfl]
    exact qmod_eq_self (by norm_num) (by norm_num)
  have hrender : ffmpeg_parse_render true false 0 0 0 5 = "00:00:00.50" := by
    unfold ffmpeg_parse_render
    rw [hval]
    unfold convert_to_output_ffmpeg convert_precise_time_to_parts
    dsimp only
    have e1 : |(1/2 : ℚ)| = 1/2 := by norm_num
    have e0 : (decide ((1/2 : ℚ) < 0)) = false := by norm_num
    have e2 : ⌊(1/2 : ℚ) / 3600⌋ = 0 := by norm_num
    have e3 : qmod (1/2 : ℚ) 3600 = 1/2 := qmod_eq_self (by norm_num) (by norm_num)
    have e4 : ⌊(1/2 : ℚ) / 60⌋ = 0 := by norm_num
    have e5 : qmod (1/2 : ℚ) 60 = 1/2 := qmod_eq_self (by norm_num) (by norm_num)
    have e6 : ⌊(1/2 : ℚ)⌋ = 0 := by norm_num
    have e7 : qmod (1/2 : ℚ) 1 = 1/2 := qmod_eq_self (by norm_num) (by norm_num)
    have e8 : pyRound ((1/2 : ℚ) * ((100 : ℤ) : ℚ)) = 50 := by norm_num [pyRound]
    rw [e1, e0, e2, e3, e4, e5, e6, e7, e8]
    rw [if_neg (by norm_num : ¬ ((50 : ℤ) ≥ 100))]
    rfl
  exact ⟨by rw [hrender]; decide, hrender⟩
